import Mathlib

/-!
Formal model of the Polar3D slicing worker (`src/server.js` together with the
file/URL helper library).  External effects (document-store writes, S3
transfers, the slicer subprocess, queue operations) are modelled by an
environment that records the outcome every external call would have, and a
run of `processMessage` is modelled as the list of effectful operations it
performs, in invocation order, together with the deltas it applies to the
process-wide in-memory counters.
-/

namespace Slicing

/-- Job state code `STATE_WAITING` from `server.js`. -/
def STATE_WAITING : Int := 0

/-- Job state code `STATE_PRE` (PREPARING) from `server.js`. -/
def STATE_PRE : Int := 1

/-- Job state code `STATE_RUN` (RUNNING) from `server.js`. -/
def STATE_RUN : Int := 2

/-- Job state code `STATE_POST` (POSTPROCESSING) from `server.js`. -/
def STATE_POST : Int := 3

/-- Job state code `STATE_DONE` from `server.js`. -/
def STATE_DONE : Int := 4

/-- Job state code `STATE_FAIL` (FAILED) from `server.js`. -/
def STATE_FAIL : Int := -1

/-- Job state code `STATE_ERR` (ERRORED) from `server.js`. -/
def STATE_ERR : Int := -2

/-- JavaScript value passed as the `err` argument of `updateState`: the
callers pass either nothing (`undefined`), an `Error` object, or a plain
string (the missing-field and URL-parse reject paths). -/
inductive JsVal
  | undef
  | errObj (message : String)
  | str (s : String)
  deriving DecidableEq, Repr

/-- JavaScript property access `err.message` rendered into a template
string: an `Error` object yields its message, while a plain string or
`undefined` has no `message` property, which renders as `"undefined"`. -/
def jsMessage : JsVal → String
  | JsVal.errObj m => m
  | JsVal.undef => "undefined"
  | JsVal.str _ => "undefined"

/-- The `switch (state)` at the top of `updateState` in `server.js`:
computes the effective state code, the `txt` label and the `detail` text
(the `default` arm maps any unknown code to `STATE_ERR`). -/
def stateTexts (state : Int) (err : JsVal) : Int × String × String :=
  if state = STATE_WAITING then
    (state, "Waiting to slice",
     "Waiting in the slicing queue for the model to be sliced")
  else if state = STATE_FAIL then
    (state, "Cannot slice",
     "The model cannot be sliced; something is incorrect with the STL file")
  else if state = STATE_ERR then
    (state, "Error", "Error; " ++ jsMessage err)
  else if state = STATE_PRE then
    (state, "Preparing slicer",
     "Preparing to slice the model; downloading the STL file and slicing options")
  else if state = STATE_RUN then
    (state, "Slicing", "Slicing the model")
  else if state = STATE_POST then
    (state, "Saving sliced model",
     "Slicing completed; uploading the printing instructions for retrieval by the printer")
  else if state = STATE_DONE then
    (state, "Slicing completed", "Slicing process finished; model is ready to print")
  else
    (STATE_ERR, "Unknown", "Unknown state")

/-- Outcome of one `PrintJob.update(...)` document-store write: the update
resolved with a positive matched count, resolved with `n === 0` (document
gone), or rejected with an error whose `message` is `m`. -/
inductive WriteOutcome
  | ok
  | zeroMatched
  | failed (m : String)
  deriving DecidableEq, Repr

/-- Outcome of one external transfer or subprocess call (resolve, or reject
with an error whose `message` is `m`). -/
inductive OpOutcome
  | ok
  | failed (m : String)
  deriving DecidableEq, Repr

/-- Result of `updateState` as seen by its caller, per `server.js`:
a zero-matched update turns into a rejection with message `CANCELED`; a
rejected update is re-raised when its message is `CANCELED` or `SLICER`
(the `.catch` clause bumps those upstairs) and swallowed otherwise. -/
def updResult : WriteOutcome → Except String Unit
  | WriteOutcome.ok => Except.ok ()
  | WriteOutcome.zeroMatched => Except.error "CANCELED"
  | WriteOutcome.failed m =>
      if m = "CANCELED" ∨ m = "SLICER" then Except.error m else Except.ok ()

/-- Whether the document-store write actually recorded the new state (the
update resolved with a positive matched count). -/
def wrote : WriteOutcome → Bool
  | WriteOutcome.ok => true
  | WriteOutcome.zeroMatched => false
  | WriteOutcome.failed _ => false

/-- Whether `updateState` resolves for this write outcome. -/
def updOk (o : WriteOutcome) : Bool :=
  match updResult o with
  | Except.ok _ => true
  | Except.error _ => false

/-- Whether an external transfer or subprocess call resolves. -/
def opOk : OpOutcome → Bool
  | OpOutcome.ok => true
  | OpOutcome.failed _ => false

/-- Time-bucket key of a stats aggregate document: the current-hour bucket
(`lib.objectIdFromTimeStamp()`) or the fixed all-zero lifetime document
(`lib.objectIdTimeZero`). -/
inductive StatsKey
  | hourly
  | lifetime
  deriving DecidableEq, Repr

/-- Field that a stats upsert increments (`slicing_succeeded`,
`slicing_failed`, `slicing_canceled`). -/
inductive StatsField
  | succeeded
  | failed
  | canceled
  deriving DecidableEq, Repr

/-- One effectful operation performed during a run of `processMessage`, in
invocation order.  `stateWrite` records the `$set` document sent to the
print-job record (effective state code, `progress` label, `progressDetail`
text) and whether the write actually took effect; `statsUpdate` records a
stats upsert with the incremented field and whether `slicing_seconds` was
also incremented. -/
inductive Event
  | stateWrite (state : Int) (txt detail : String) (recorded : Bool)
  | downloadOp
  | sliceOp
  | uploadOp
  | cleanupFiles
  | removeMsg
  | requeueMsg
  | statsUpdate (key : StatsKey) (field : StatsField) (secs : Bool)
  deriving DecidableEq, Repr

/-- The `stateWrite` event produced by one call of `updateState`. -/
def updEvent (o : WriteOutcome) (st : Int) (e : JsVal) : Event :=
  Event.stateWrite (stateTexts st e).1 (stateTexts st e).2.1 (stateTexts st e).2.2 (wrote o)

/-- `updateState(msg, state, err)` from `server.js` as one function: the
write it sends to the print-job document (as an event) and the result its
caller observes. -/
def updateState (o : WriteOutcome) (state : Int) (err : JsVal) : Event × Except String Unit :=
  (updEvent o state err, updResult o)

/-- Environment fixing the outcome of every external call a single run can
make: `write n` is the outcome of the n-th status write the run attempts
(counting from 0), `parseOk` whether the three `lib.parseUrl` calls all
succeed (`parseErrMsg` the thrown message otherwise), `download` the joined
pair of S3 downloads, `slicer` the `exec` of the Cura command (with
`sliceMs` the elapsed milliseconds recorded on success), and `upload` the
S3 upload. -/
structure Env where
  write : Nat → WriteOutcome
  parseOk : Bool
  parseErrMsg : String
  download : OpOutcome
  slicer : OpOutcome
  sliceMs : Nat
  upload : OpOutcome

/-- Presence of the six required fields in an inbound queue message. -/
structure Msg where
  config_file : Bool
  gcode_file : Bool
  handle : Bool
  job_id : Bool
  job_oid : Bool
  stl_file : Bool
  deriving DecidableEq, Repr

/-- Names of the six required message fields, in the order of the
`mustHave` array in `server.js`. -/
inductive Field
  | config_file
  | gcode_file
  | handle
  | job_id
  | job_oid
  | stl_file
  deriving DecidableEq, Repr

/-- The `mustHave` array from `server.js`, in source order. -/
def mustHave : List Field :=
  [Field.config_file, Field.gcode_file, Field.handle,
   Field.job_id, Field.job_oid, Field.stl_file]

/-- Whether the message carries the given required field. -/
def Msg.has (m : Msg) : Field → Bool
  | Field.config_file => m.config_file
  | Field.gcode_file => m.gcode_file
  | Field.handle => m.handle
  | Field.job_id => m.job_id
  | Field.job_oid => m.job_oid
  | Field.stl_file => m.stl_file

/-- The first required field the message lacks, if any — the field whose
check breaks the `for` loop over `mustHave` in `processMessage`. -/
def firstMissing (m : Msg) : Option Field :=
  mustHave.find? (fun f => !(m.has f))

/-- All six required fields are present. -/
def msgComplete (m : Msg) : Bool :=
  m.config_file && m.gcode_file && m.handle && m.job_id && m.job_oid && m.stl_file

/-- Source-order name of a required field. -/
def fieldName : Field → String
  | Field.config_file => "config_file"
  | Field.gcode_file => "gcode_file"
  | Field.handle => "handle"
  | Field.job_id => "job_id"
  | Field.job_oid => "job_oid"
  | Field.stl_file => "stl_file"

/-- The reject text built in `processMessage` for a missing field (this
string is then passed to `updateState` as the `err` argument). -/
def missingFieldText (f : Field) : String :=
  "Programming error; slicing request is missing the required parameter " ++ fieldName f

/-- The reject text built in `processMessage` for a URL-parse failure. -/
def parseFailText (env : Env) : String :=
  "Programming error; invalid data; cannot parse URL; err = " ++ env.parseErrMsg

/-- Result of the main promise chain
`downloadFiles → spawnSlicer → uploadFile → notifyDone → cleanFiles`:
the events it performed, the index of the next status write, the
milliseconds added to `totalSlicingTime`, and the error (message string)
that falls through to the `.catch` of `processMessage`, if any. -/
structure ChainOut where
  events : List Event
  nextIdx : Nat
  totalMs : Nat
  err : Option String

/-- The main promise chain of `processMessage` for a validated message:
each stage first calls `updateState`, then performs its external operation;
a slicer rejection is mapped to the `SLICER` signal; `notifyDone` removes
the queue message and `cleanFiles` then deletes the local files; slicing
time accumulates into `totalSlicingTime` as soon as `exec` resolves. -/
def runChain (env : Env) : ChainOut :=
  match updResult (env.write 0) with
  | Except.error e =>
      ⟨[updEvent (env.write 0) STATE_PRE JsVal.undef], 1, 0, some e⟩
  | Except.ok _ =>
    match env.download with
    | OpOutcome.failed m =>
        ⟨[updEvent (env.write 0) STATE_PRE JsVal.undef, Event.downloadOp], 1, 0, some m⟩
    | OpOutcome.ok =>
      match updResult (env.write 1) with
      | Except.error e =>
          ⟨[updEvent (env.write 0) STATE_PRE JsVal.undef, Event.downloadOp,
            updEvent (env.write 1) STATE_RUN JsVal.undef], 2, 0, some e⟩
      | Except.ok _ =>
        match env.slicer with
        | OpOutcome.failed _ =>
            ⟨[updEvent (env.write 0) STATE_PRE JsVal.undef, Event.downloadOp,
              updEvent (env.write 1) STATE_RUN JsVal.undef, Event.sliceOp], 2, 0, some "SLICER"⟩
        | OpOutcome.ok =>
          match updResult (env.write 2) with
          | Except.error e =>
              ⟨[updEvent (env.write 0) STATE_PRE JsVal.undef, Event.downloadOp,
                updEvent (env.write 1) STATE_RUN JsVal.undef, Event.sliceOp,
                updEvent (env.write 2) STATE_POST JsVal.undef], 3, env.sliceMs, some e⟩
          | Except.ok _ =>
            match env.upload with
            | OpOutcome.failed m =>
                ⟨[updEvent (env.write 0) STATE_PRE JsVal.undef, Event.downloadOp,
                  updEvent (env.write 1) STATE_RUN JsVal.undef, Event.sliceOp,
                  updEvent (env.write 2) STATE_POST JsVal.undef, Event.uploadOp],
                 3, env.sliceMs, some m⟩
            | OpOutcome.ok =>
              match updResult (env.write 3) with
              | Except.error e =>
                  ⟨[updEvent (env.write 0) STATE_PRE JsVal.undef, Event.downloadOp,
                    updEvent (env.write 1) STATE_RUN JsVal.undef, Event.sliceOp,
                    updEvent (env.write 2) STATE_POST JsVal.undef, Event.uploadOp,
                    updEvent (env.write 3) STATE_DONE JsVal.undef], 4, env.sliceMs, some e⟩
              | Except.ok _ =>
                  ⟨[updEvent (env.write 0) STATE_PRE JsVal.undef, Event.downloadOp,
                    updEvent (env.write 1) STATE_RUN JsVal.undef, Event.sliceOp,
                    updEvent (env.write 2) STATE_POST JsVal.undef, Event.uploadOp,
                    updEvent (env.write 3) STATE_DONE JsVal.undef,
                    Event.removeMsg, Event.cleanupFiles], 4, env.sliceMs, none⟩

/-- Deltas applied to the process-wide in-memory counters by one run
(`jobsSucceeded`, `jobsFailed`, `jobsFailedSlicing`, `jobsCanceled`, and
the milliseconds added to `totalSlicingTime`). -/
structure Counters where
  jobsSucceeded : Nat
  jobsFailed : Nat
  jobsFailedSlicing : Nat
  jobsCanceled : Nat
  totalSlicingMs : Nat
  deriving DecidableEq, Repr

/-- The `.catch` of `processMessage`: classify the error message, write the
corresponding stats/state best-effort, clean up local files, then remove or
requeue the queue message.  `idx` is the index of the next status write,
`totalMs` the slicing time already accumulated by the chain. -/
def catchTail (env : Env) (e : String) (idx : Nat) (totalMs : Nat) : List Event × Counters :=
  if e = "CANCELED" then
    ([Event.statsUpdate StatsKey.hourly StatsField.canceled false,
      Event.cleanupFiles, Event.removeMsg],
     ⟨0, 0, 0, 1, totalMs⟩)
  else if e = "SLICER" then
    ([Event.statsUpdate StatsKey.hourly StatsField.failed false,
      updEvent (env.write idx) STATE_FAIL JsVal.undef,
      Event.cleanupFiles, Event.removeMsg],
     ⟨0, 0, 1, 0, totalMs⟩)
  else
    ([updEvent (env.write idx) STATE_ERR (JsVal.errObj e),
      Event.cleanupFiles, Event.requeueMsg],
     ⟨0, 1, 0, 0, totalMs⟩)

/-- The early-reject path of `processMessage` (missing field or URL-parse
failure): `updateState(msg, STATE_ERR, <string>).then(queue.removeMessage)`
with any rejection swallowed — the message is removed only when the state
write resolves. -/
def rejectPath (env : Env) (errText : String) : List Event × Counters :=
  match updResult (env.write 0) with
  | Except.ok _ =>
      ([updEvent (env.write 0) STATE_ERR (JsVal.str errText), Event.removeMsg],
       ⟨0, 0, 0, 0, 0⟩)
  | Except.error _ =>
      ([updEvent (env.write 0) STATE_ERR (JsVal.str errText)],
       ⟨0, 0, 0, 0, 0⟩)

/-- `processMessage` from `server.js`: validate the six required fields,
parse the three URLs, then run the main chain; on chain success record the
hourly and lifetime success stats and bump `jobsSucceeded`, otherwise run
the `.catch` classification. -/
def processMessage (env : Env) (msg : Msg) : List Event × Counters :=
  match firstMissing msg with
  | some f => rejectPath env (missingFieldText f)
  | none =>
    if env.parseOk then
      match (runChain env).err with
      | none =>
          ((runChain env).events ++
            [Event.statsUpdate StatsKey.hourly StatsField.succeeded true,
             Event.statsUpdate StatsKey.lifetime StatsField.succeeded true],
           ⟨1, 0, 0, 0, (runChain env).totalMs⟩)
      | some e =>
          ((runChain env).events ++ (catchTail env e (runChain env).nextIdx (runChain env).totalMs).1,
           (catchTail env e (runChain env).nextIdx (runChain env).totalMs).2)
    else rejectPath env (parseFailText env)

/-- States actually recorded in the status document during a run, in write
order (state writes whose document update took effect). -/
def writtenStates (t : List Event) : List Int :=
  t.filterMap fun x =>
    match x with
    | Event.stateWrite st _ _ true => some st
    | _ => none

/-- The stats upserts of a trace, in order. -/
def statsEvents (t : List Event) : List Event :=
  t.filter fun x =>
    match x with
    | Event.statsUpdate _ _ _ => true
    | _ => false

/-- Number of stats upserts in a trace that increment `slicing_seconds`. -/
def secsStatsCount (t : List Event) : Nat :=
  (t.filter fun x =>
    match x with
    | Event.statsUpdate _ _ true => true
    | _ => false).length

/-- Index of the first occurrence of an event in a trace (length of the
trace when absent). -/
def idxOfEvent (a : Event) : List Event → Nat
  | [] => 0
  | b :: t => if b = a then 0 else idxOfEvent a t + 1

/-- Whether the slicer subprocess was reached and resolved in this
environment: the PREPARING and RUNNING status writes did not abort the
chain, the downloads resolved, and `exec` resolved. -/
def sliceReachedOk (env : Env) : Bool :=
  updOk (env.write 0) && opOk env.download && updOk (env.write 1) && opOk env.slicer

/-- Argument passed to `lib.removeFiles`: nothing (a falsy value), a single
file-name string, or an array of file names. -/
inductive FilesArg
  | noneArg
  | one (f : String)
  | many (fs : List String)
  deriving DecidableEq, Repr

/-- `lib.removeFiles(logid, files)` from the helper library, with
`unlinkErr f` the outcome of `fs.unlink(f)` (`none` = success).  A falsy
argument (including the empty string) resolves at once; a single-element
array or a longer array swallows unlink failures; a non-empty single string
returns the bare `unlink` promise with no `.catch`. -/
def removeFiles (unlinkErr : String → Option String) : FilesArg → Except String Unit
  | FilesArg.noneArg => Except.ok ()
  | FilesArg.one f =>
      if f = "" then Except.ok ()
      else
        match unlinkErr f with
        | none => Except.ok ()
        | some m => Except.error m
  | FilesArg.many [] => Except.ok ()
  | FilesArg.many (_ :: _) => Except.ok ()

/-- Message with all six required fields present. -/
def msgAll : Msg := ⟨true, true, true, true, true, true⟩

/-- Message lacking `config_file`, all other required fields present. -/
def msgMissingConfig : Msg := ⟨false, true, true, true, true, true⟩

/-- Environment in which every external call succeeds (slicing takes
5000 ms). -/
def envAllOk : Env :=
  ⟨fun _ => WriteOutcome.ok, true, "", OpOutcome.ok, OpOutcome.ok, 5000, OpOutcome.ok⟩

/-- Environment in which the very first status write reports zero matched
rows (the job record vanished before PREPARING). -/
def envCancelPre : Env :=
  ⟨fun _ => WriteOutcome.zeroMatched, true, "", OpOutcome.ok, OpOutcome.ok, 5000, OpOutcome.ok⟩

/-- Environment in which the slicer subprocess exits abnormally. -/
def envSlicerFail : Env :=
  ⟨fun _ => WriteOutcome.ok, true, "", OpOutcome.ok,
   OpOutcome.failed "Command failed, exit code 1", 0, OpOutcome.ok⟩

/-- Environment in which slicing succeeds (5000 ms) but the gcode upload
fails transiently. -/
def envUploadFail : Env :=
  ⟨fun _ => WriteOutcome.ok, true, "", OpOutcome.ok, OpOutcome.ok, 5000,
   OpOutcome.failed "connection reset"⟩

/-- Environment in which everything succeeds except the DONE status write,
which fails with a generic (non-Canceled) error. -/
def envDoneFail : Env :=
  ⟨fun n => if n = 3 then WriteOutcome.failed "connection lost" else WriteOutcome.ok,
   true, "", OpOutcome.ok, OpOutcome.ok, 5000, OpOutcome.ok⟩

end Slicing

namespace Slicing

lemma msgComplete_firstMissing (m : Msg) (h : msgComplete m = true) : firstMissing m = none := by
  cases m with
  | mk a b c d e f =>
    simp only [msgComplete, Bool.and_eq_true] at h
    obtain ⟨⟨⟨⟨⟨ha, hb⟩, hc⟩, hd⟩, he⟩, hf⟩ := h
    subst ha hb hc hd he hf
    rfl

lemma processMessage_ok (env : Env) (msg : Msg)
    (hm : msgComplete msg = true) (hp : env.parseOk = true)
    (hc : (runChain env).err = none) :
    processMessage env msg =
      ((runChain env).events ++
        [Event.statsUpdate StatsKey.hourly StatsField.succeeded true,
         Event.statsUpdate StatsKey.lifetime StatsField.succeeded true],
       ⟨1, 0, 0, 0, (runChain env).totalMs⟩) := by
  unfold processMessage
  rw [msgComplete_firstMissing msg hm, hp, hc]
  rfl

lemma processMessage_err (env : Env) (msg : Msg) (e : String)
    (hm : msgComplete msg = true) (hp : env.parseOk = true)
    (hc : (runChain env).err = some e) :
    processMessage env msg =
      ((runChain env).events ++ (catchTail env e (runChain env).nextIdx (runChain env).totalMs).1,
       (catchTail env e (runChain env).nextIdx (runChain env).totalMs).2) := by
  unfold processMessage
  rw [msgComplete_firstMissing msg hm, hp, hc]
  rfl

end Slicing

namespace Slicing

lemma updResult_ok_of_failed (m : String) (h1 : m ≠ "CANCELED") (h2 : m ≠ "SLICER") :
    updResult (WriteOutcome.failed m) = Except.ok () := by
  simp [updResult, h1, h2]

lemma runChain_success_gen (env : Env)
    (h0 : updResult (env.write 0) = Except.ok ())
    (h1 : updResult (env.write 1) = Except.ok ())
    (h2 : updResult (env.write 2) = Except.ok ())
    (h3 : updResult (env.write 3) = Except.ok ())
    (hd : env.download = OpOutcome.ok)
    (hs : env.slicer = OpOutcome.ok)
    (hu : env.upload = OpOutcome.ok) :
    runChain env =
      ⟨[updEvent (env.write 0) STATE_PRE JsVal.undef, Event.downloadOp,
        updEvent (env.write 1) STATE_RUN JsVal.undef, Event.sliceOp,
        updEvent (env.write 2) STATE_POST JsVal.undef, Event.uploadOp,
        updEvent (env.write 3) STATE_DONE JsVal.undef,
        Event.removeMsg, Event.cleanupFiles], 4, env.sliceMs, none⟩ := by
  unfold runChain
  rw [h0, hd, h1, hs, h2, hu, h3]

lemma runChain_slicerFail (env : Env) (m : String)
    (h0 : updResult (env.write 0) = Except.ok ())
    (hd : env.download = OpOutcome.ok)
    (h1 : updResult (env.write 1) = Except.ok ())
    (hs : env.slicer = OpOutcome.failed m) :
    runChain env =
      ⟨[updEvent (env.write 0) STATE_PRE JsVal.undef, Event.downloadOp,
        updEvent (env.write 1) STATE_RUN JsVal.undef, Event.sliceOp], 2, 0, some "SLICER"⟩ := by
  unfold runChain
  rw [h0, hd, h1, hs]

lemma runChain_no_requeue (env : Env) : Event.requeueMsg ∉ (runChain env).events := by
  unfold runChain
  repeat' split
  all_goals simp [updEvent]

lemma runChain_statsEvents (env : Env) : statsEvents (runChain env).events = [] := by
  unfold runChain
  repeat' split
  all_goals simp [statsEvents, updEvent]

lemma runChain_secsCount (env : Env) : secsStatsCount (runChain env).events = 0 := by
  unfold runChain
  repeat' split
  all_goals simp [secsStatsCount, updEvent]

lemma runChain_err_events (env : Env) :
    (runChain env).err = none ∨
    (Event.removeMsg ∉ (runChain env).events ∧ Event.cleanupFiles ∉ (runChain env).events) := by
  unfold runChain
  repeat' split
  all_goals simp [updEvent]

lemma runChain_totalMs (env : Env) :
    (runChain env).totalMs = (if sliceReachedOk env then env.sliceMs else 0) := by
  unfold runChain
  repeat' split
  all_goals simp_all [sliceReachedOk, updOk, opOk]

lemma idxOfEvent_append (a : Event) (l1 l2 : List Event) (h : a ∉ l1) :
    idxOfEvent a (l1 ++ l2) = l1.length + idxOfEvent a l2 := by
  induction l1 with
  | nil => simp [idxOfEvent]
  | cons b t ih =>
      simp only [List.mem_cons, not_or] at h
      have hb : ¬ (b = a) := fun hh => h.1 hh.symm
      simp only [List.cons_append, idxOfEvent, if_neg hb, List.append_eq, ih h.2,
        List.length_cons]
      omega

end Slicing

namespace Slicing

lemma updEvent_pre_eq (o : WriteOutcome) :
    updEvent o STATE_PRE JsVal.undef =
      Event.stateWrite STATE_PRE "Preparing slicer"
        "Preparing to slice the model; downloading the STL file and slicing options" (wrote o) := rfl

lemma updEvent_run_eq (o : WriteOutcome) :
    updEvent o STATE_RUN JsVal.undef =
      Event.stateWrite STATE_RUN "Slicing" "Slicing the model" (wrote o) := rfl

lemma updEvent_post_eq (o : WriteOutcome) :
    updEvent o STATE_POST JsVal.undef =
      Event.stateWrite STATE_POST "Saving sliced model"
        "Slicing completed; uploading the printing instructions for retrieval by the printer"
        (wrote o) := rfl

lemma updEvent_done_eq (o : WriteOutcome) :
    updEvent o STATE_DONE JsVal.undef =
      Event.stateWrite STATE_DONE "Slicing completed"
        "Slicing process finished; model is ready to print" (wrote o) := rfl

lemma updEvent_fail_eq (o : WriteOutcome) :
    updEvent o STATE_FAIL JsVal.undef =
      Event.stateWrite STATE_FAIL "Cannot slice"
        "The model cannot be sliced; something is incorrect with the STL file" (wrote o) := rfl

lemma updEvent_errObj_eq (o : WriteOutcome) (m : String) :
    updEvent o STATE_ERR (JsVal.errObj m) =
      Event.stateWrite STATE_ERR "Error" ("Error; " ++ m) (wrote o) := rfl

lemma statsEvents_append (a b : List Event) :
    statsEvents (a ++ b) = statsEvents a ++ statsEvents b := by
  simp [statsEvents, List.filter_append]

lemma secsCount_append (a b : List Event) :
    secsStatsCount (a ++ b) = secsStatsCount a + secsStatsCount b := by
  simp [secsStatsCount, List.filter_append]

lemma catchTail_totalMs (env : Env) (e : String) (idx tms : Nat) :
    ((catchTail env e idx tms).2).totalSlicingMs = tms := by
  unfold catchTail
  split_ifs <;> rfl

lemma catchTail_secs (env : Env) (e : String) (idx tms : Nat) :
    secsStatsCount (catchTail env e idx tms).1 = 0 := by
  unfold catchTail
  split_ifs <;> simp [secsStatsCount, updEvent_fail_eq, updEvent_errObj_eq]

/-- Claim C1: for every message that passes validation and whose downloads,
slicer invocation, upload, and status writes all succeed, `processMessage`
writes the status document states in exactly the order PREPARING, RUNNING,
POSTPROCESSING, DONE — each state written before its stage's external
operation begins, as the full operation trace shows — and no other states
are written. -/
theorem claim_c1_success_order (env : Env) (msg : Msg)
    (hm : msgComplete msg = true) (hp : env.parseOk = true)
    (h0 : env.write 0 = WriteOutcome.ok) (h1 : env.write 1 = WriteOutcome.ok)
    (h2 : env.write 2 = WriteOutcome.ok) (h3 : env.write 3 = WriteOutcome.ok)
    (hd : env.download = OpOutcome.ok) (hs : env.slicer = OpOutcome.ok)
    (hu : env.upload = OpOutcome.ok) :
    (processMessage env msg).1 =
      [updEvent WriteOutcome.ok STATE_PRE JsVal.undef, Event.downloadOp,
       updEvent WriteOutcome.ok STATE_RUN JsVal.undef, Event.sliceOp,
       updEvent WriteOutcome.ok STATE_POST JsVal.undef, Event.uploadOp,
       updEvent WriteOutcome.ok STATE_DONE JsVal.undef,
       Event.removeMsg, Event.cleanupFiles,
       Event.statsUpdate StatsKey.hourly StatsField.succeeded true,
       Event.statsUpdate StatsKey.lifetime StatsField.succeeded true] ∧
    writtenStates (processMessage env msg).1 =
      [STATE_PRE, STATE_RUN, STATE_POST, STATE_DONE] := by
  have e0 : updResult (env.write 0) = Except.ok () := by rw [h0]; rfl
  have e1 : updResult (env.write 1) = Except.ok () := by rw [h1]; rfl
  have e2 : updResult (env.write 2) = Except.ok () := by rw [h2]; rfl
  have e3 : updResult (env.write 3) = Except.ok () := by rw [h3]; rfl
  have hchain := runChain_success_gen env e0 e1 e2 e3 hd hs hu
  have hpm := processMessage_ok env msg hm hp (by rw [hchain])
  have htr : (processMessage env msg).1 =
      [updEvent WriteOutcome.ok STATE_PRE JsVal.undef, Event.downloadOp,
       updEvent WriteOutcome.ok STATE_RUN JsVal.undef, Event.sliceOp,
       updEvent WriteOutcome.ok STATE_POST JsVal.undef, Event.uploadOp,
       updEvent WriteOutcome.ok STATE_DONE JsVal.undef,
       Event.removeMsg, Event.cleanupFiles,
       Event.statsUpdate StatsKey.hourly StatsField.succeeded true,
       Event.statsUpdate StatsKey.lifetime StatsField.succeeded true] := by
    rw [hpm, hchain, h0, h1, h2, h3]
    rfl
  exact ⟨htr, by rw [htr]; rfl⟩

/-- Witness for C1: the all-success environment realises every hypothesis. -/
theorem claim_c1_success_order_witness :
    (processMessage envAllOk msgAll).1 =
      [updEvent WriteOutcome.ok STATE_PRE JsVal.undef, Event.downloadOp,
       updEvent WriteOutcome.ok STATE_RUN JsVal.undef, Event.sliceOp,
       updEvent WriteOutcome.ok STATE_POST JsVal.undef, Event.uploadOp,
       updEvent WriteOutcome.ok STATE_DONE JsVal.undef,
       Event.removeMsg, Event.cleanupFiles,
       Event.statsUpdate StatsKey.hourly StatsField.succeeded true,
       Event.statsUpdate StatsKey.lifetime StatsField.succeeded true] ∧
    writtenStates (processMessage envAllOk msgAll).1 =
      [STATE_PRE, STATE_RUN, STATE_POST, STATE_DONE] :=
  claim_c1_success_order envAllOk msgAll rfl rfl rfl rfl rfl rfl rfl rfl rfl

/-- Claim C2: for every tracked (validated) message whose processing fails
with the `CANCELED` signal, the run is the chain prefix followed only by the
canceled-stats upsert, local cleanup and permanent removal: no further state
is written after the failure, the message is never requeued, and the
canceled counter is incremented exactly once. -/
theorem claim_c2_canceled (env : Env) (msg : Msg)
    (hm : msgComplete msg = true) (hp : env.parseOk = true)
    (hc : (runChain env).err = some "CANCELED") :
    processMessage env msg =
      ((runChain env).events ++
        [Event.statsUpdate StatsKey.hourly StatsField.canceled false,
         Event.cleanupFiles, Event.removeMsg],
       ⟨0, 0, 0, 1, (runChain env).totalMs⟩) ∧
    Event.requeueMsg ∉ (processMessage env msg).1 ∧
    (∀ s t d r, Event.stateWrite s t d r ∈ (processMessage env msg).1 →
      Event.stateWrite s t d r ∈ (runChain env).events) := by
  have hpm := processMessage_err env msg "CANCELED" hm hp hc
  have hct : catchTail env "CANCELED" (runChain env).nextIdx (runChain env).totalMs =
      ([Event.statsUpdate StatsKey.hourly StatsField.canceled false,
        Event.cleanupFiles, Event.removeMsg],
       ⟨0, 0, 0, 1, (runChain env).totalMs⟩) := by
    unfold catchTail
    rw [if_pos rfl]
  rw [hct] at hpm
  have h1 : (processMessage env msg).1 =
      (runChain env).events ++
        [Event.statsUpdate StatsKey.hourly StatsField.canceled false,
         Event.cleanupFiles, Event.removeMsg] := by rw [hpm]
  refine ⟨hpm, ?_, ?_⟩
  · rw [h1]
    simp [List.mem_append, runChain_no_requeue env]
  · intro s t d r hmem
    rw [h1] at hmem
    rcases List.mem_append.mp hmem with h | h
    · exact h
    · simp at h

/-- Witness for C2: the job record vanishes before the PREPARING write. -/
theorem claim_c2_canceled_witness :
    (processMessage envCancelPre msgAll =
      ((runChain envCancelPre).events ++
        [Event.statsUpdate StatsKey.hourly StatsField.canceled false,
         Event.cleanupFiles, Event.removeMsg],
       ⟨0, 0, 0, 1, (runChain envCancelPre).totalMs⟩) ∧
     Event.requeueMsg ∉ (processMessage envCancelPre msgAll).1 ∧
     (∀ s t d r, Event.stateWrite s t d r ∈ (processMessage envCancelPre msgAll).1 →
        Event.stateWrite s t d r ∈ (runChain envCancelPre).events)) :=
  claim_c2_canceled envCancelPre msgAll rfl rfl rfl

/-- Claim C3: for every tracked message whose slicer invocation rejects
(abnormal exit), whatever the underlying error message, the failure is
classified as the `SLICER` signal: a best-effort FAILED state write is
attempted, the message is permanently removed (never requeued), and the
failed-slicing counter is incremented exactly once. -/
theorem claim_c3_slicer_failure (env : Env) (msg : Msg) (m : String)
    (hm : msgComplete msg = true) (hp : env.parseOk = true)
    (h0 : updResult (env.write 0) = Except.ok ())
    (hd : env.download = OpOutcome.ok)
    (h1 : updResult (env.write 1) = Except.ok ())
    (hs : env.slicer = OpOutcome.failed m) :
    processMessage env msg =
      ([updEvent (env.write 0) STATE_PRE JsVal.undef, Event.downloadOp,
        updEvent (env.write 1) STATE_RUN JsVal.undef, Event.sliceOp,
        Event.statsUpdate StatsKey.hourly StatsField.failed false,
        Event.stateWrite STATE_FAIL "Cannot slice"
          "The model cannot be sliced; something is incorrect with the STL file"
          (wrote (env.write 2)),
        Event.cleanupFiles, Event.removeMsg],
       ⟨0, 0, 1, 0, 0⟩) ∧
    Event.requeueMsg ∉ (processMessage env msg).1 := by
  have hchain := runChain_slicerFail env m h0 hd h1 hs
  have hpm := processMessage_err env msg "SLICER" hm hp (by rw [hchain])
  rw [hchain] at hpm
  have hct : catchTail env "SLICER" 2 0 =
      ([Event.statsUpdate StatsKey.hourly StatsField.failed false,
        updEvent (env.write 2) STATE_FAIL JsVal.undef,
        Event.cleanupFiles, Event.removeMsg],
       ⟨0, 0, 1, 0, 0⟩) := by
    unfold catchTail
    rw [if_neg (by decide), if_pos rfl]
  rw [hct, updEvent_fail_eq] at hpm
  have h1 : (processMessage env msg).1 =
      [updEvent (env.write 0) STATE_PRE JsVal.undef, Event.downloadOp,
       updEvent (env.write 1) STATE_RUN JsVal.undef, Event.sliceOp,
       Event.statsUpdate StatsKey.hourly StatsField.failed false,
       Event.stateWrite STATE_FAIL "Cannot slice"
         "The model cannot be sliced; something is incorrect with the STL file"
         (wrote (env.write 2)),
       Event.cleanupFiles, Event.removeMsg] := by rw [hpm]; rfl
  refine ⟨hpm, ?_⟩
  rw [h1]
  simp [updEvent_pre_eq, updEvent_run_eq]

/-- Witness for C3: the slicer exits with code 1 in `envSlicerFail`. -/
theorem claim_c3_slicer_failure_witness :
    (processMessage envSlicerFail msgAll =
      ([updEvent (envSlicerFail.write 0) STATE_PRE JsVal.undef, Event.downloadOp,
        updEvent (envSlicerFail.write 1) STATE_RUN JsVal.undef, Event.sliceOp,
        Event.statsUpdate StatsKey.hourly StatsField.failed false,
        Event.stateWrite STATE_FAIL "Cannot slice"
          "The model cannot be sliced; something is incorrect with the STL file"
          (wrote (envSlicerFail.write 2)),
        Event.cleanupFiles, Event.removeMsg],
       ⟨0, 0, 1, 0, 0⟩) ∧
     Event.requeueMsg ∉ (processMessage envSlicerFail msgAll).1) :=
  claim_c3_slicer_failure envSlicerFail msgAll "Command failed, exit code 1"
    rfl rfl rfl rfl rfl rfl

end Slicing

namespace Slicing

/-- Claim C4: for every tracked message whose processing fails with an error
other than `CANCELED` or `SLICER`, a best-effort ERRORED write carrying the
error text is attempted, local files are cleaned up, the message is requeued
and never permanently removed, and the generic-failure counter is
incremented exactly once. -/
theorem claim_c4_generic_failure (env : Env) (msg : Msg) (e : String)
    (hm : msgComplete msg = true) (hp : env.parseOk = true)
    (hc : (runChain env).err = some e)
    (he1 : e ≠ "CANCELED") (he2 : e ≠ "SLICER") :
    processMessage env msg =
      ((runChain env).events ++
        [Event.stateWrite STATE_ERR "Error" ("Error; " ++ e)
           (wrote (env.write (runChain env).nextIdx)),
         Event.cleanupFiles, Event.requeueMsg],
       ⟨0, 1, 0, 0, (runChain env).totalMs⟩) ∧
    Event.removeMsg ∉ (processMessage env msg).1 := by
  have hpm := processMessage_err env msg e hm hp hc
  have hct : catchTail env e (runChain env).nextIdx (runChain env).totalMs =
      ([updEvent (env.write (runChain env).nextIdx) STATE_ERR (JsVal.errObj e),
        Event.cleanupFiles, Event.requeueMsg],
       ⟨0, 1, 0, 0, (runChain env).totalMs⟩) := by
    unfold catchTail
    rw [if_neg he1, if_neg he2]
  rw [hct, updEvent_errObj_eq] at hpm
  have hnrm : Event.removeMsg ∉ (runChain env).events := by
    rcases runChain_err_events env with h | h
    · rw [hc] at h; cases h
    · exact h.1
  have h1 : (processMessage env msg).1 =
      (runChain env).events ++
        [Event.stateWrite STATE_ERR "Error" ("Error; " ++ e)
           (wrote (env.write (runChain env).nextIdx)),
         Event.cleanupFiles, Event.requeueMsg] := by rw [hpm]
  refine ⟨hpm, ?_⟩
  rw [h1]
  simp [List.mem_append, hnrm]

/-- Witness for C4: the gcode upload rejects with a transport error. -/
theorem claim_c4_generic_failure_witness :
    (processMessage envUploadFail msgAll =
      ((runChain envUploadFail).events ++
        [Event.stateWrite STATE_ERR "Error" ("Error; " ++ "connection reset")
           (wrote (envUploadFail.write (runChain envUploadFail).nextIdx)),
         Event.cleanupFiles, Event.requeueMsg],
       ⟨0, 1, 0, 0, (runChain envUploadFail).totalMs⟩) ∧
     Event.removeMsg ∉ (processMessage envUploadFail msgAll).1) :=
  claim_c4_generic_failure envUploadFail msgAll "connection reset" rfl rfl rfl
    (by decide) (by decide)

/-- Claim C5 (counterexample): `updateState` also fails with the Canceled
signal when the document update rejects with an error whose message is the
literal string `CANCELED`, even though no zero-matched-rows result was
reported, so the signal does not arise exactly on zero matched rows. -/
theorem claim_c5_counterexample :
    (updateState (WriteOutcome.failed "CANCELED") STATE_DONE JsVal.undef).2 =
      Except.error "CANCELED" ∧
    WriteOutcome.failed "CANCELED" ≠ WriteOutcome.zeroMatched :=
  ⟨rfl, by decide⟩

/-- Claim C5 (amended): `updateState` fails with the Canceled signal exactly
when the update reports zero matched rows or the write failure's own message
is the literal `CANCELED` token; any write failure whose message is neither
`CANCELED` nor `SLICER` is swallowed and the call resolves, so a
non-Canceled failure of the DONE write still yields overall pipeline
success: the message is removed, never requeued, and the success counter is
incremented, even though the DONE write was not recorded. -/
theorem claim_c5_amended (env : Env) (msg : Msg) (m : String)
    (hm : msgComplete msg = true) (hp : env.parseOk = true)
    (h0 : env.write 0 = WriteOutcome.ok) (h1 : env.write 1 = WriteOutcome.ok)
    (h2 : env.write 2 = WriteOutcome.ok)
    (h3 : env.write 3 = WriteOutcome.failed m)
    (hm1 : m ≠ "CANCELED") (hm2 : m ≠ "SLICER")
    (hd : env.download = OpOutcome.ok) (hs : env.slicer = OpOutcome.ok)
    (hu : env.upload = OpOutcome.ok) :
    (∀ o : WriteOutcome, ∀ st : Int, ∀ e : JsVal,
       (updateState o st e).2 = Except.error "CANCELED" ↔
       (o = WriteOutcome.zeroMatched ∨ o = WriteOutcome.failed "CANCELED")) ∧
    (∀ s : String, ∀ st : Int, ∀ e : JsVal, s ≠ "CANCELED" → s ≠ "SLICER" →
       (updateState (WriteOutcome.failed s) st e).2 = Except.ok ()) ∧
    (processMessage env msg).2.jobsSucceeded = 1 ∧
    Event.removeMsg ∈ (processMessage env msg).1 ∧
    Event.requeueMsg ∉ (processMessage env msg).1 ∧
    Event.stateWrite STATE_DONE "Slicing completed"
      "Slicing process finished; model is ready to print" false ∈
      (processMessage env msg).1 := by
  have e0 : updResult (env.write 0) = Except.ok () := by rw [h0]; rfl
  have e1 : updResult (env.write 1) = Except.ok () := by rw [h1]; rfl
  have e2 : updResult (env.write 2) = Except.ok () := by rw [h2]; rfl
  have e3 : updResult (env.write 3) = Except.ok () := by
    rw [h3]; exact updResult_ok_of_failed m hm1 hm2
  have hchain := runChain_success_gen env e0 e1 e2 e3 hd hs hu
  have hpm := processMessage_ok env msg hm hp (by rw [hchain])
  have htr : (processMessage env msg).1 =
      [updEvent WriteOutcome.ok STATE_PRE JsVal.undef, Event.downloadOp,
       updEvent WriteOutcome.ok STATE_RUN JsVal.undef, Event.sliceOp,
       updEvent WriteOutcome.ok STATE_POST JsVal.undef, Event.uploadOp,
       Event.stateWrite STATE_DONE "Slicing completed"
         "Slicing process finished; model is ready to print" false,
       Event.removeMsg, Event.cleanupFiles,
       Event.statsUpdate StatsKey.hourly StatsField.succeeded true,
       Event.statsUpdate StatsKey.lifetime StatsField.succeeded true] := by
    rw [hpm, hchain, h0, h1, h2, h3]
    rfl
  refine ⟨?_, ?_, ?_, ?_, ?_, ?_⟩
  · intro o st e
    show updResult o = Except.error "CANCELED" ↔ _
    cases o with
    | ok => simp [updResult]
    | zeroMatched => simp [updResult]
    | failed s =>
        by_cases hs1 : s = "CANCELED"
        · subst hs1
          simp [show updResult (WriteOutcome.failed "CANCELED") = Except.error "CANCELED" from rfl]
        · by_cases hs2 : s = "SLICER"
          · subst hs2
            simp [show updResult (WriteOutcome.failed "SLICER") = Except.error "SLICER" from rfl]
          · simp [updResult, hs1, hs2]
  · intro s st e hh1 hh2
    show updResult (WriteOutcome.failed s) = Except.ok ()
    exact updResult_ok_of_failed s hh1 hh2
  · rw [hpm]
  · rw [htr]; decide
  · rw [htr]; decide
  · rw [htr]; decide

/-- Witness for C5: everything succeeds except the DONE write, which fails
with a generic connectivity error. -/
theorem claim_c5_amended_witness :
    ((∀ o : WriteOutcome, ∀ st : Int, ∀ e : JsVal,
        (updateState o st e).2 = Except.error "CANCELED" ↔
        (o = WriteOutcome.zeroMatched ∨ o = WriteOutcome.failed "CANCELED")) ∧
     (∀ s : String, ∀ st : Int, ∀ e : JsVal, s ≠ "CANCELED" → s ≠ "SLICER" →
        (updateState (WriteOutcome.failed s) st e).2 = Except.ok ()) ∧
     (processMessage envDoneFail msgAll).2.jobsSucceeded = 1 ∧
     Event.removeMsg ∈ (processMessage envDoneFail msgAll).1 ∧
     Event.requeueMsg ∉ (processMessage envDoneFail msgAll).1 ∧
     Event.stateWrite STATE_DONE "Slicing completed"
       "Slicing process finished; model is ready to print" false ∈
       (processMessage envDoneFail msgAll).1) :=
  claim_c5_amended envDoneFail msgAll "connection lost" rfl rfl rfl rfl rfl rfl
    (by decide) (by decide) rfl rfl rfl

/-- Claim C6 (code evaluation): for a message lacking `config_file`, the run
performs no download or upload, removes the queue message without requeuing
it, but the ERRORED write's detail text is the literal "Error; undefined":
the descriptive text built in `processMessage` is lost because a plain
string is passed to `updateState`, whose `err.message` access on a string
yields `undefined`. -/
theorem claim_c6_missing_field_eval :
    processMessage envAllOk msgMissingConfig =
      ([Event.stateWrite STATE_ERR "Error" "Error; undefined" true, Event.removeMsg],
       ⟨0, 0, 0, 0, 0⟩) ∧
    Event.downloadOp ∉ (processMessage envAllOk msgMissingConfig).1 ∧
    Event.uploadOp ∉ (processMessage envAllOk msgMissingConfig).1 ∧
    Event.requeueMsg ∉ (processMessage envAllOk msgMissingConfig).1 ∧
    missingFieldText Field.config_file =
      "Programming error; slicing request is missing the required parameter config_file" ∧
    (stateTexts STATE_ERR (JsVal.str (missingFieldText Field.config_file))).2.2 =
      "Error; undefined" :=
  ⟨rfl, by decide, by decide, by decide, rfl, rfl⟩

end Slicing

namespace Slicing

/-- Claim C7 (counterexample): in a fully successful run the queue message
is removed (inside `notifyDone`) strictly before the local files are cleaned
up (by `cleanFiles`), so deletion of local copies does not precede the queue
disposition in the success branch. -/
theorem claim_c7_counterexample :
    Event.removeMsg ∈ (processMessage envAllOk msgAll).1 ∧
    Event.cleanupFiles ∈ (processMessage envAllOk msgAll).1 ∧
    idxOfEvent Event.removeMsg (processMessage envAllOk msgAll).1 <
      idxOfEvent Event.cleanupFiles (processMessage envAllOk msgAll).1 := by
  decide

/-- Claim C7 (amended): in the three failure branches (canceled, slicer
failure, transient failure) local-file cleanup is initiated before the queue
disposition — it precedes both a removal and a requeue of the message —
whereas in the success branch the queue message is removed before local
cleanup runs. -/
theorem claim_c7_amended (env env4 : Env) (msg : Msg) (e : String)
    (hm : msgComplete msg = true) (hp : env.parseOk = true)
    (hc : (runChain env).err = some e)
    (hp4 : env4.parseOk = true)
    (g0 : env4.write 0 = WriteOutcome.ok) (g1 : env4.write 1 = WriteOutcome.ok)
    (g2 : env4.write 2 = WriteOutcome.ok) (g3 : env4.write 3 = WriteOutcome.ok)
    (gd : env4.download = OpOutcome.ok) (gs : env4.slicer = OpOutcome.ok)
    (gu : env4.upload = OpOutcome.ok) :
    (Event.cleanupFiles ∈ (processMessage env msg).1 ∧
     idxOfEvent Event.cleanupFiles (processMessage env msg).1 <
       idxOfEvent Event.removeMsg (processMessage env msg).1 ∧
     idxOfEvent Event.cleanupFiles (processMessage env msg).1 <
       idxOfEvent Event.requeueMsg (processMessage env msg).1) ∧
    (Event.removeMsg ∈ (processMessage env4 msg).1 ∧
     idxOfEvent Event.removeMsg (processMessage env4 msg).1 <
       idxOfEvent Event.cleanupFiles (processMessage env4 msg).1) := by
  constructor
  · have hpm := processMessage_err env msg e hm hp hc
    have hstruct : Event.removeMsg ∉ (runChain env).events ∧
        Event.cleanupFiles ∉ (runChain env).events := by
      rcases runChain_err_events env with h | h
      · rw [hc] at h; cases h
      · exact h
    have h1 : (processMessage env msg).1 =
        (runChain env).events ++
          (catchTail env e (runChain env).nextIdx (runChain env).totalMs).1 := by
      rw [hpm]
    have htail :
        Event.cleanupFiles ∈
          (catchTail env e (runChain env).nextIdx (runChain env).totalMs).1 ∧
        idxOfEvent Event.cleanupFiles
            (catchTail env e (runChain env).nextIdx (runChain env).totalMs).1 <
          idxOfEvent Event.removeMsg
            (catchTail env e (runChain env).nextIdx (runChain env).totalMs).1 ∧
        idxOfEvent Event.cleanupFiles
            (catchTail env e (runChain env).nextIdx (runChain env).totalMs).1 <
          idxOfEvent Event.requeueMsg
            (catchTail env e (runChain env).nextIdx (runChain env).totalMs).1 := by
      unfold catchTail
      split_ifs with hca hsl
      · simp [idxOfEvent]
      · simp [idxOfEvent, updEvent_fail_eq]
      · simp [idxOfEvent, updEvent_errObj_eq]
    refine ⟨?_, ?_, ?_⟩
    · rw [h1]
      exact List.mem_append_right _ htail.1
    · rw [h1, idxOfEvent_append _ _ _ hstruct.2, idxOfEvent_append _ _ _ hstruct.1]
      exact Nat.add_lt_add_left htail.2.1 _
    · rw [h1, idxOfEvent_append _ _ _ hstruct.2,
        idxOfEvent_append _ _ _ (runChain_no_requeue env)]
      exact Nat.add_lt_add_left htail.2.2 _
  · have e0 : updResult (env4.write 0) = Except.ok () := by rw [g0]; rfl
    have e1 : updResult (env4.write 1) = Except.ok () := by rw [g1]; rfl
    have e2 : updResult (env4.write 2) = Except.ok () := by rw [g2]; rfl
    have e3 : updResult (env4.write 3) = Except.ok () := by rw [g3]; rfl
    have hchain := runChain_success_gen env4 e0 e1 e2 e3 gd gs gu
    have hpm := processMessage_ok env4 msg hm hp4 (by rw [hchain])
    have htr : (processMessage env4 msg).1 =
        [updEvent WriteOutcome.ok STATE_PRE JsVal.undef, Event.downloadOp,
         updEvent WriteOutcome.ok STATE_RUN JsVal.undef, Event.sliceOp,
         updEvent WriteOutcome.ok STATE_POST JsVal.undef, Event.uploadOp,
         updEvent WriteOutcome.ok STATE_DONE JsVal.undef,
         Event.removeMsg, Event.cleanupFiles,
         Event.statsUpdate StatsKey.hourly StatsField.succeeded true,
         Event.statsUpdate StatsKey.lifetime StatsField.succeeded true] := by
      rw [hpm, hchain, g0, g1, g2, g3]
      rfl
    rw [htr]
    exact ⟨by decide, by decide⟩

/-- Witness for C7 (amended): a transient upload failure for the failure
branches and the all-success environment for the success branch. -/
theorem claim_c7_amended_witness :
    ((Event.cleanupFiles ∈ (processMessage envUploadFail msgAll).1 ∧
      idxOfEvent Event.cleanupFiles (processMessage envUploadFail msgAll).1 <
        idxOfEvent Event.removeMsg (processMessage envUploadFail msgAll).1 ∧
      idxOfEvent Event.cleanupFiles (processMessage envUploadFail msgAll).1 <
        idxOfEvent Event.requeueMsg (processMessage envUploadFail msgAll).1) ∧
     (Event.removeMsg ∈ (processMessage envAllOk msgAll).1 ∧
      idxOfEvent Event.removeMsg (processMessage envAllOk msgAll).1 <
        idxOfEvent Event.cleanupFiles (processMessage envAllOk msgAll).1)) :=
  claim_c7_amended envUploadFail envAllOk msgAll "connection reset"
    rfl rfl rfl rfl rfl rfl rfl rfl rfl rfl rfl

/-- Claim C8 (counterexample): a completed cancellation disposition upserts
only the hourly stats document — no lifetime-document upsert occurs — so the
two-document claim fails for cancellations. -/
theorem claim_c8_counterexample :
    (processMessage envCancelPre msgAll).2.jobsCanceled = 1 ∧
    statsEvents (processMessage envCancelPre msgAll).1 =
      [Event.statsUpdate StatsKey.hourly StatsField.canceled false] ∧
    Event.statsUpdate StatsKey.lifetime StatsField.canceled false ∉
      (processMessage envCancelPre msgAll).1 := by
  refine ⟨rfl, rfl, by decide⟩

/-- Claim C8 (amended): a successful disposition upserts both the hourly
and the lifetime stats documents, incrementing `slicing_succeeded` and
`slicing_seconds`; a slicer-failure disposition upserts only the hourly
document, incrementing `slicing_failed`; a cancellation upserts only the
hourly document, incrementing `slicing_canceled`. -/
theorem claim_c8_amended (envS envF envC : Env) (msg : Msg)
    (hm : msgComplete msg = true)
    (hpS : envS.parseOk = true) (hcS : (runChain envS).err = none)
    (hpF : envF.parseOk = true) (hcF : (runChain envF).err = some "SLICER")
    (hpC : envC.parseOk = true) (hcC : (runChain envC).err = some "CANCELED") :
    statsEvents (processMessage envS msg).1 =
      [Event.statsUpdate StatsKey.hourly StatsField.succeeded true,
       Event.statsUpdate StatsKey.lifetime StatsField.succeeded true] ∧
    statsEvents (processMessage envF msg).1 =
      [Event.statsUpdate StatsKey.hourly StatsField.failed false] ∧
    statsEvents (processMessage envC msg).1 =
      [Event.statsUpdate StatsKey.hourly StatsField.canceled false] := by
  refine ⟨?_, ?_, ?_⟩
  · have hpm := processMessage_ok envS msg hm hpS hcS
    have h1 : (processMessage envS msg).1 =
        (runChain envS).events ++
          [Event.statsUpdate StatsKey.hourly StatsField.succeeded true,
           Event.statsUpdate StatsKey.lifetime StatsField.succeeded true] := by
      rw [hpm]
    rw [h1, statsEvents_append, runChain_statsEvents]
    rfl
  · have hpm := processMessage_err envF msg "SLICER" hm hpF hcF
    have hct : catchTail envF "SLICER" (runChain envF).nextIdx (runChain envF).totalMs =
        ([Event.statsUpdate StatsKey.hourly StatsField.failed false,
          updEvent (envF.write (runChain envF).nextIdx) STATE_FAIL JsVal.undef,
          Event.cleanupFiles, Event.removeMsg],
         ⟨0, 0, 1, 0, (runChain envF).totalMs⟩) := by
      unfold catchTail
      rw [if_neg (by decide), if_pos rfl]
    rw [hct] at hpm
    have h1 : (processMessage envF msg).1 =
        (runChain envF).events ++
          [Event.statsUpdate StatsKey.hourly StatsField.failed false,
           updEvent (envF.write (runChain envF).nextIdx) STATE_FAIL JsVal.undef,
           Event.cleanupFiles, Event.removeMsg] := by
      rw [hpm]
    rw [h1, statsEvents_append, runChain_statsEvents]
    simp [statsEvents, updEvent_fail_eq]
  · have hpm := processMessage_err envC msg "CANCELED" hm hpC hcC
    have hct : catchTail envC "CANCELED" (runChain envC).nextIdx (runChain envC).totalMs =
        ([Event.statsUpdate StatsKey.hourly StatsField.canceled false,
          Event.cleanupFiles, Event.removeMsg],
         ⟨0, 0, 0, 1, (runChain envC).totalMs⟩) := by
      unfold catchTail
      rw [if_pos rfl]
    rw [hct] at hpm
    have h1 : (processMessage envC msg).1 =
        (runChain envC).events ++
          [Event.statsUpdate StatsKey.hourly StatsField.canceled false,
           Event.cleanupFiles, Event.removeMsg] := by
      rw [hpm]
    rw [h1, statsEvents_append, runChain_statsEvents]
    rfl

/-- Witness for C8 (amended): all-success, slicer-failure and canceled
environments. -/
theorem claim_c8_amended_witness :
    (statsEvents (processMessage envAllOk msgAll).1 =
      [Event.statsUpdate StatsKey.hourly StatsField.succeeded true,
       Event.statsUpdate StatsKey.lifetime StatsField.succeeded true] ∧
     statsEvents (processMessage envSlicerFail msgAll).1 =
      [Event.statsUpdate StatsKey.hourly StatsField.failed false] ∧
     statsEvents (processMessage envCancelPre msgAll).1 =
      [Event.statsUpdate StatsKey.hourly StatsField.canceled false]) :=
  claim_c8_amended envAllOk envSlicerFail envCancelPre msgAll rfl rfl rfl rfl rfl rfl rfl

/-- Claim C9 (counterexample): when `removeFiles` is given a single
file-name string and the deletion fails (for instance because the file is
absent), the call rejects instead of resolving — the bare `unlink` promise
is returned with no catch handler. -/
theorem claim_c9_counterexample :
    removeFiles (fun _ => some "ENOENT: no such file or directory")
      (FilesArg.one "model.stl") =
      Except.error "ENOENT: no such file or directory" ∧
    removeFiles (fun _ => some "ENOENT: no such file or directory")
      (FilesArg.one "model.stl") ≠ Except.ok () := by
  refine ⟨rfl, ?_⟩
  intro h
  cases h

/-- Claim C9 (amended): `removeFiles` resolves successfully for an absent
argument and for a list of zero or more file names regardless of deletion
failures, but for a single non-empty file-name string whose deletion fails
the failure is surfaced to the caller as a rejection. -/
theorem claim_c9_amended (u : String → Option String) (fs : List String)
    (f : String) (m : String) (hf : f ≠ "") (hu : u f = some m) :
    removeFiles u (FilesArg.many fs) = Except.ok () ∧
    removeFiles u FilesArg.noneArg = Except.ok () ∧
    removeFiles u (FilesArg.one f) = Except.error m := by
  refine ⟨?_, rfl, ?_⟩
  · cases fs with
    | nil => rfl
    | cons a t => rfl
  · simp [removeFiles, hf, hu]

/-- Witness for C9 (amended): every deletion fails with ENOENT, yet the
two-element list resolves while the single string rejects. -/
theorem claim_c9_amended_witness :
    (removeFiles (fun _ => some "ENOENT") (FilesArg.many ["a.stl", "b.ini"]) =
      Except.ok () ∧
     removeFiles (fun _ => some "ENOENT") FilesArg.noneArg = Except.ok () ∧
     removeFiles (fun _ => some "ENOENT") (FilesArg.one "a.stl") =
      Except.error "ENOENT") :=
  claim_c9_amended (fun _ => some "ENOENT") ["a.stl", "b.ini"] "a.stl" "ENOENT"
    (by decide) rfl

/-- Claim C10 (counterexample): a job whose slicer invocation succeeds but
whose upload then fails still contributes its slicing time to the in-memory
`totalSlicingTime` counter, so a job failing at a later stage does not
contribute zero slicing seconds. -/
theorem claim_c10_counterexample :
    (processMessage envUploadFail msgAll).2.jobsFailed = 1 ∧
    (processMessage envUploadFail msgAll).2.totalSlicingMs = 5000 ∧
    (processMessage envUploadFail msgAll).2.totalSlicingMs ≠ 0 := by
  refine ⟨rfl, rfl, by decide⟩

/-- Claim C10 (amended): for every validated message, the in-memory
`totalSlicingTime` counter accumulates the slicing duration exactly when the
slicer invocation itself was reached and resolved — regardless of whether a
later stage fails or the job is canceled afterwards — while the persisted
`slicing_seconds` increments (the stats upserts carrying seconds) occur
exactly twice on a fully successful run and never otherwise. -/
theorem claim_c10_amended (env : Env) (msg : Msg)
    (hm : msgComplete msg = true) (hp : env.parseOk = true) :
    (processMessage env msg).2.totalSlicingMs =
      (if sliceReachedOk env then env.sliceMs else 0) ∧
    secsStatsCount (processMessage env msg).1 =
      (if (runChain env).err = none then 2 else 0) := by
  rcases hce : (runChain env).err with _ | e
  · have hpm := processMessage_ok env msg hm hp hce
    constructor
    · have h2 : (processMessage env msg).2.totalSlicingMs = (runChain env).totalMs := by
        rw [hpm]
      rw [h2]
      exact runChain_totalMs env
    · have h1 : (processMessage env msg).1 =
          (runChain env).events ++
            [Event.statsUpdate StatsKey.hourly StatsField.succeeded true,
             Event.statsUpdate StatsKey.lifetime StatsField.succeeded true] := by
        rw [hpm]
      rw [h1, secsCount_append, runChain_secsCount]
      rfl
  · have hpm := processMessage_err env msg e hm hp hce
    constructor
    · have h2 : (processMessage env msg).2.totalSlicingMs =
          ((catchTail env e (runChain env).nextIdx (runChain env).totalMs).2).totalSlicingMs := by
        rw [hpm]
      rw [h2, catchTail_totalMs]
      exact runChain_totalMs env
    · have h1 : (processMessage env msg).1 =
          (runChain env).events ++
            (catchTail env e (runChain env).nextIdx (runChain env).totalMs).1 := by
        rw [hpm]
      rw [h1, secsCount_append, runChain_secsCount, catchTail_secs]
      rfl

/-- Witness for C10 (amended): the all-success environment. -/
theorem claim_c10_amended_witness :
    ((processMessage envAllOk msgAll).2.totalSlicingMs =
      (if sliceReachedOk envAllOk then envAllOk.sliceMs else 0) ∧
     secsStatsCount (processMessage envAllOk msgAll).1 =
      (if (runChain envAllOk).err = none then 2 else 0)) :=
  claim_c10_amended envAllOk msgAll rfl rfl

end Slicing
